import Mathlib

/-!
Verification of the interaction dispatch pipeline of `checkin_bot_main.py`
(repository DiscordCheckinBot).  The Python source is shallowly embedded:
JSON values become the inductive `JVal`, Python dict/list subscripting and
`.get` become `Except`-valued accessors that record which exception a given
operation raises, the external effects (the crypto check, `json.loads`, the
two outbound HTTP calls) are abstracted as a context `Ctx` of oracle
functions, and each function of the source becomes a Lean function that
returns its result inside `Except PyErr` together with the list of outbound
network calls it performed.
-/

/-- The Python exception kinds that the embedded code can raise. -/
inductive PyErr where
  | keyError
  | typeError
  | valueError
  | attributeError
  | indexError
  | requestsError
  | jsonDecodeError
deriving DecidableEq, Repr

/-- A JSON value, the shape of every payload the Python code manipulates. -/
inductive JVal where
  | jnull
  | jbool (b : Bool)
  | jnum (n : Int)
  | jstr (s : String)
  | jarr (elems : List JVal)
  | jobj (fields : List (String × JVal))
deriving Repr

/-- Python truthiness of a JSON value (`if x:`). -/
def jTruthy : JVal → Bool
  | .jnull => false
  | .jbool b => b
  | .jnum n => n != 0
  | .jstr s => s != ""
  | .jarr xs => !xs.isEmpty
  | .jobj fs => !fs.isEmpty

/-- Python `v == n` for an int literal `n`: ints compare by value, bools
compare as 0/1 (Python `True == 1`), everything else is unequal. -/
def pyEqInt (v : JVal) (n : Int) : Bool :=
  match v with
  | .jnum m => m == n
  | .jbool b => (if b then (1 : Int) else 0) == n
  | _ => false

/-- Python `v == s` for a string literal `s`. -/
def pyEqStr (v : JVal) (s : String) : Bool :=
  match v with
  | .jstr t => t == s
  | _ => false

/-- Python `d[k]` for a string key: dict lookup raising `KeyError` when the
key is absent, `TypeError` on any non-dict (list/str indices must be
integers; the other values are not subscriptable). -/
def pyGetItem (v : JVal) (k : String) : Except PyErr JVal :=
  match v with
  | .jobj fs =>
    match List.lookup k fs with
    | some x => .ok x
    | none => .error .keyError
  | _ => .error .typeError

/-- Python `d.get(k, default)`: total on dicts, `AttributeError` on any
non-dict value (lists/strings/numbers have no `.get`). -/
def pyGetD (v : JVal) (k : String) (default : JVal) : Except PyErr JVal :=
  match v with
  | .jobj fs => .ok ((List.lookup k fs).getD default)
  | _ => .error .attributeError

/-- Python `v[0]`: first element of a list, first character of a string
(as a 1-char string), `KeyError` on a dict (JSON keys are strings, so the
integer key 0 is absent), `TypeError` otherwise. -/
def pyIndex0 (v : JVal) : Except PyErr JVal :=
  match v with
  | .jarr [] => .error .indexError
  | .jarr (x :: _) => .ok x
  | .jstr s =>
    match s.toList with
    | [] => .error .indexError
    | c :: _ => .ok (.jstr (String.singleton c))
  | .jobj _ => .error .keyError
  | _ => .error .typeError

/-- Python `v[:n]`, used as `predictions[:5]` and `attachments[:4]`, followed
by iteration: a list slices to its first `n` elements, a string slices to its
first `n` characters (iterating a string yields 1-char strings), anything
else raises `TypeError` (unsubscriptable / unhashable slice). -/
def pySlice (v : JVal) (n : Nat) : Except PyErr (List JVal) :=
  match v with
  | .jarr xs => .ok (xs.take n)
  | .jstr s => .ok ((s.toList.take n).map (fun c => .jstr (String.singleton c)))
  | _ => .error .typeError

mutual

/-- Python `repr` of a JSON value, used by f-string interpolation of
non-string values (containers interpolate via their repr). -/
def pyRepr : JVal → String
  | .jnull => "None"
  | .jbool true => "True"
  | .jbool false => "False"
  | .jnum n => toString n
  | .jstr s => "\x27" ++ s ++ "\x27"
  | .jarr xs => "[" ++ pyReprList xs ++ "]"
  | .jobj fs => "\x7b" ++ pyReprFields fs ++ "\x7d"

/-- Comma-joined reprs of a list of values. -/
def pyReprList : List JVal → String
  | [] => ""
  | [x] => pyRepr x
  | x :: y :: rest => pyRepr x ++ ", " ++ pyReprList (y :: rest)

/-- Comma-joined reprs of dict fields. -/
def pyReprFields : List (String × JVal) → String
  | [] => ""
  | [p] => "\x27" ++ p.1 ++ "\x27: " ++ pyRepr p.2
  | p :: q :: rest => "\x27" ++ p.1 ++ "\x27: " ++ pyRepr p.2 ++ ", " ++ pyReprFields (q :: rest)

end

/-- Python `str(v)` as applied by f-string interpolation (`f"... {v} ..."`):
a string interpolates as itself, other values via `str`/`repr`. -/
def pyStr (v : JVal) : String :=
  match v with
  | .jstr s => s
  | .jbool true => "True"
  | .jbool false => "False"
  | .jnull => "None"
  | .jnum n => toString n
  | v => pyRepr v

/-- Value of a hex digit character, `none` when not a hex digit. -/
def hexDigitVal (c : Char) : Option Nat :=
  if '0' ≤ c ∧ c ≤ '9' then some (c.toNat - '0'.toNat)
  else if 'a' ≤ c ∧ c ≤ 'f' then some (c.toNat - 'a'.toNat + 10)
  else if 'A' ≤ c ∧ c ≤ 'F' then some (c.toNat - 'A'.toNat + 10)
  else none

/-- Core of Python `bytes.fromhex`: pairs of hex digits, ASCII spaces allowed
between byte pairs; any other character, or a dangling single digit, raises
`ValueError` (modelled as `none`). -/
def bytesFromHexAux : List Char → Option (List Nat)
  | [] => some []
  | ' ' :: rest => bytesFromHexAux rest
  | c1 :: c2 :: rest =>
    match hexDigitVal c1, hexDigitVal c2 with
    | some h, some l => (bytesFromHexAux rest).map (fun bs => (16 * h + l) :: bs)
    | _, _ => none
  | [_] => none

/-- Python `bytes.fromhex` on a string, as a list of byte values. -/
def bytesFromHex (s : String) : Option (List Nat) := bytesFromHexAux s.toList

/-- UTF-8 encoding of one character as byte values (Python strings are
encoded to UTF-8 bytes before percent-encoding). -/
def utf8Bytes (c : Char) : List Nat :=
  let n := c.toNat
  if n < 0x80 then [n]
  else if n < 0x800 then
    [0xC0 + n / 0x40, 0x80 + n % 0x40]
  else if n < 0x10000 then
    [0xE0 + n / 0x1000, 0x80 + (n / 0x40) % 0x40, 0x80 + n % 0x40]
  else
    [0xF0 + n / 0x40000, 0x80 + (n / 0x1000) % 0x40, 0x80 + (n / 0x40) % 0x40, 0x80 + n % 0x40]

/-- Bytes left unescaped by `urllib.parse.quote` with its default
`safe="/"`: ASCII letters, digits, `_.-~`, and `/`. -/
def quoteSafeByte (b : Nat) : Bool :=
  (0x41 ≤ b && b ≤ 0x5A) || (0x61 ≤ b && b ≤ 0x7A) || (0x30 ≤ b && b ≤ 0x39) ||
  b == 0x2D || b == 0x2E || b == 0x5F || b == 0x7E || b == 0x2F

/-- Upper-case hex digit character for a value below 16. -/
def hexUpper (n : Nat) : Char :=
  if n < 10 then Char.ofNat ('0'.toNat + n) else Char.ofNat ('A'.toNat + n - 10)

/-- `urllib.parse.quote` on a string: UTF-8 encode, keep safe bytes, percent
encode the rest with upper-case hex. -/
def pyQuote (s : String) : String :=
  String.join ((s.toList.flatMap utf8Bytes).map (fun b =>
    if quoteSafeByte b then String.singleton (Char.ofNat b)
    else String.singleton '%' ++ String.singleton (hexUpper (b / 16)) ++
      String.singleton (hexUpper (b % 16))))

/-- `urllib.parse.quote` applied to an arbitrary value: defined for strings,
`TypeError` for every other JSON value (quote accepts only str/bytes). -/
def urlquote : JVal → Except PyErr String
  | .jstr s => .ok (pyQuote s)
  | _ => .error .typeError

/-- Boolean test: `needle` is a prefix of `hay` (over character lists). -/
def strStartsB : List Char → List Char → Bool
  | _, [] => true
  | [], _ :: _ => false
  | h :: hs, n :: ns => h == n && strStartsB hs ns

/-- Boolean substring test over character lists. -/
def strContainsList : List Char → List Char → Bool
  | [], needle => needle.isEmpty
  | h :: t, needle => strStartsB (h :: t) needle || strContainsList t needle

/-- Python `needle in hay` on strings. -/
def strContains (hay needle : String) : Bool :=
  strContainsList hay.toList needle.toList

example : pyQuote "Madison Square Garden" = "Madison%20Square%20Garden" := by rfl
example : strContains "abcdef" "cde" = true := by rfl
example : strContains "abcdef" "cdf" = false := by rfl
example : bytesFromHex "0aFf" = some [10, 255] := by rfl
example : bytesFromHex "zz" = none := by rfl
example : bytesFromHex "0" = none := by rfl

/-- Outcome of the `requests.get` call to the Places autocomplete endpoint:
either the transport raises, or a response arrives whose body either parses
as JSON (`some v`) or makes `response.json()` raise (`none`). -/
inductive PlacesResult where
  | transportError
  | response (jsonBody : Option JVal)

/-- One outbound network call performed by the handler: the autocomplete GET
(recording the `input` parameter) or the interaction-callback POST
(recording interaction id, token and JSON payload). -/
inductive NetCall where
  | placesGet (input : JVal)
  | callbackPost (interactionId interactionToken payload : JVal)

/-- The process environment of the Lambda: the Ed25519 primitive
(`crypto_sign_open` succeeding on given signature bytes and message),
`json.loads` on the request body string, the two external HTTP endpoints,
and the Google Maps API key fetched at process start.  `PUBLIC_KEY` is
assumed to be a well-formed hex key (it was accepted at process start), so
`nacl.signing.VerifyKey` construction never fails. -/
structure Ctx where
  sigValid : List Nat → String → Bool
  json_loads : String → Except PyErr JVal
  placesGet : JVal → PlacesResult
  postCallback : JVal → JVal → JVal → Except PyErr Unit
  googleKey : String

/-- The inbound Lambda event: its `headers` dict (string-valued, as API
Gateway delivers them) and its optional raw `body` string (`none` when the
`body` key is absent). -/
structure Event where
  headers : List (String × String)
  body : Option String

/-- `event["headers"].get(name, "")`. -/
def headerOrEmpty (e : Event) (name : String) : String :=
  (List.lookup name e.headers).getD ""

/-- The body of a Lambda response dict: either a plain Python string or the
`json.dumps` serialization of a JSON value (kept structured; `json.dumps`
is injective on the values built here). -/
inductive RespBody where
  | str (s : String)
  | json (v : JVal)

/-- A Lambda response dict `{statusCode, headers?, body}`. -/
structure LambdaResponse where
  statusCode : Nat
  headers : Option (List (String × String))
  body : RespBody

/-- The 401 reply of `lambda_handler` (source lines 123-125). -/
def resp401 : LambdaResponse :=
  { statusCode := 401, headers := none, body := .str "invalid request signature" }

/-- The ping acknowledgment (source lines 136-138). -/
def pingResp : LambdaResponse :=
  { statusCode := 200, headers := none, body := .json (.jobj [("type", .jnum 1)]) }

/-- The synchronous autocomplete reply (source lines 151-156). -/
def autocompleteResp (choices : List JVal) : LambdaResponse :=
  { statusCode := 200
    headers := some [("Content-Type", "application/json")]
    body := .json (.jobj [("type", .jnum 8), ("data", .jobj [("choices", .jarr choices)])]) }

/-- The empty 200 acknowledgment of the command branch (source lines
228 and 251). -/
def cmdAckResp : LambdaResponse :=
  { statusCode := 200, headers := none, body := .str "" }

/-- The 400 fallback for unhandled interaction types (source lines 256-259). -/
def unhandledResp : LambdaResponse :=
  { statusCode := 400, headers := none
    body := .json (.jobj [("error", .jstr "Unhandled interaction type")]) }

/-- `verify_signature` (source lines 62-77).  Reads the two signature
headers with default `""`, the raw body with default `""`, and calls
`verify_key.verify(f"{timestamp}{body}".encode(), bytes.fromhex(signature))`
inside `try/except nacl.exceptions.BadSignatureError`.  `bytes.fromhex` on
malformed hex raises `ValueError`, and PyNaCl's `verify` raises `ValueError`
when the signature is not exactly 64 bytes; neither is caught by the
`except BadSignatureError` clause.  A cryptographic mismatch raises
`BadSignatureError`, which is caught and becomes `False`. -/
def verify_signature (ctx : Ctx) (e : Event) : Except PyErr Bool :=
  let signature := headerOrEmpty e "x-signature-ed25519"
  let timestamp := headerOrEmpty e "x-signature-timestamp"
  let body := e.body.getD ""
  match bytesFromHex signature with
  | none => .error .valueError
  | some sigBytes =>
    if sigBytes.length = 64 then
      if ctx.sigValid sigBytes (timestamp ++ body) then .ok true
      else .ok false
    else .error .valueError

/-- `[p["description"] for p in ps]`: left-to-right, the first failing
subscript aborts the comprehension with its exception. -/
def extractDescriptions : List JVal → Except PyErr (List JVal)
  | [] => .ok []
  | p :: ps =>
    match pyGetItem p "description" with
    | .error er => .error er
    | .ok d =>
      match extractDescriptions ps with
      | .error er => .error er
      | .ok ds => .ok (d :: ds)

/-- `get_location_suggestions` (source lines 80-102).  Empty (falsy) input
short-circuits to `[]` with no network call.  Otherwise `requests.get` is
called (recorded in the trace); a transport error or a body on which
`response.json()` fails raises (nothing in the source catches it).  On a
JSON body, `data.get("predictions", [])` is read and the first five
prediction descriptions are extracted. -/
def get_location_suggestions (ctx : Ctx) (input_text : JVal) :
    Except PyErr (List JVal) × List NetCall :=
  if jTruthy input_text = false then (.ok [], [])
  else
    let calls := [NetCall.placesGet input_text]
    match ctx.placesGet input_text with
    | .transportError => (.error .requestsError, calls)
    | .response none => (.error .jsonDecodeError, calls)
    | .response (some data) =>
      match pyGetD data "predictions" (.jarr []) with
      | .error er => (.error er, calls)
      | .ok predictions =>
        match pySlice predictions 5 with
        | .error er => (.error er, calls)
        | .ok ps =>
          match extractDescriptions ps with
          | .error er => (.error er, calls)
          | .ok suggestions => (.ok suggestions, calls)

/-- `send_interaction_response` (source lines 105-112): one POST to the
interaction callback URL; the HTTP status is only logged, but a transport
failure of `requests.post` raises out of the function. -/
def send_interaction_response (ctx : Ctx)
    (interaction_id interaction_token message_data : JVal) :
    Except PyErr Unit × List NetCall :=
  (ctx.postCallback interaction_id interaction_token message_data,
   [NetCall.callbackPost interaction_id interaction_token message_data])

/-- The option-scanning loop of the command branch (source lines 169-176):
`for opt in options: if opt["name"] == "location": location_value =
opt["value"] elif opt["name"] == "message": message_value = opt["value"]`,
threading the two accumulators. -/
def scanOptions : List JVal → JVal → JVal → Except PyErr (JVal × JVal)
  | [], loc, msg => .ok (loc, msg)
  | opt :: rest, loc, msg =>
    match pyGetItem opt "name" with
    | .error er => .error er
    | .ok nm =>
      if pyEqStr nm "location" then
        match pyGetItem opt "value" with
        | .error er => .error er
        | .ok v => scanOptions rest v msg
      else if pyEqStr nm "message" then
        match pyGetItem opt "value" with
        | .error er => .error er
        | .ok v => scanOptions rest loc v
      else scanOptions rest loc msg

/-- Iteration of the command branch over the `options` value, starting from
`location_value = None`, `message_value = ""`.  A JSON array iterates over
its elements; iterating a non-empty string yields 1-char strings and
iterating a non-empty dict yields its string keys, so the first
`opt["name"]` subscript raises `TypeError`; numbers, booleans and `None`
are not iterable at all. -/
def iter_options (options : JVal) : Except PyErr (JVal × JVal) :=
  match options with
  | .jarr os => scanOptions os .jnull (.jstr "")
  | .jstr s => if s = "" then .ok (.jnull, .jstr "") else .error .typeError
  | .jobj fs => if fs.isEmpty then .ok (.jnull, .jstr "") else .error .typeError
  | _ => .error .typeError

/-- `body["member"].get("nick") or body["member"]["user"]["username"]`
(source lines 182-184): Python `or` takes the nickname when truthy and
otherwise evaluates the right operand, re-subscripting `body["member"]`. -/
def display_name_of (body : JVal) : Except PyErr JVal :=
  match pyGetItem body "member" with
  | .error er => .error er
  | .ok mem =>
    match pyGetD mem "nick" .jnull with
    | .error er => .error er
    | .ok nick =>
      if jTruthy nick then .ok nick
      else
        match pyGetItem body "member" with
        | .error er => .error er
        | .ok mem2 =>
          match pyGetItem mem2 "user" with
          | .error er => .error er
          | .ok user => pyGetItem user "username"

/-- The embed title literal of source line 199 (the source file stores the
pin emoji as the mojibake bytes U+F8FF U+00FC U+00EC U+00E7). -/
def checkinTitle : String := "üìç Check-In Complete!"

/-- The embed dict of the command branch (source lines 187-209): the static
map URL built from the percent-encoded location, and the description
f-string interpolating the literal location, the message (or the
placeholder), and the Google Maps search URL with the percent-encoded
location. -/
def checkin_embed (googleKey : String)
    (location_value message_value display_name : JVal) : Except PyErr JVal :=
  match urlquote location_value with
  | .error er => .error er
  | .ok encoded_location =>
    let map_url :=
      "https://maps.googleapis.com/maps/api/staticmap?center=" ++ encoded_location ++
      "&zoom=15&size=600x300&markers=color:red|" ++ encoded_location ++
      "&key=" ++ googleKey
    let description :=
      "**Location**: " ++ pyStr location_value ++
      "\n**Message**: " ++
      (if jTruthy message_value then pyStr message_value else "*No message provided*") ++
      "\n\n[View on Google Maps](https://www.google.com/maps/search/?api=1&query=" ++
      encoded_location ++ ")"
    .ok (.jobj
      [("title", .jstr checkinTitle),
       ("color", .jnum 0x5865F2),
       ("description", .jstr description),
       ("image", .jobj [("url", .jstr map_url)]),
       ("footer", .jobj [("text", .jstr ("Checked in by " ++ pyStr display_name))])])

/-- The extra image embed appended for one attachment (source line 215). -/
def imageEmbed (u : JVal) : JVal := .jobj [("image", .jobj [("url", u)])]

/-- The loop body of source lines 214-215: one `{"image": {"url":
att["url"]}}` per attachment of the (already sliced) list. -/
def attImageEmbeds : List JVal → Except PyErr (List JVal)
  | [] => .ok []
  | a :: rest =>
    match pyGetItem a "url" with
    | .error er => .error er
    | .ok u =>
      match attImageEmbeds rest with
      | .error er => .error er
      | .ok es => .ok (imageEmbed u :: es)

/-- `for att in attachments[:4]: embeds.append({"image": {"url":
att["url"]}})` (source lines 212-215). -/
def build_attachment_embeds (attachments : JVal) : Except PyErr (List JVal) :=
  match pySlice attachments 4 with
  | .error er => .error er
  | .ok atts => attImageEmbeds atts

/-- The callback payload of the location branch (source lines 180-226 up to
the `send_interaction_response` argument): display name resolution, embed
construction, attachment slicing, and the `{"type": 4, "data": {...}}`
message, in source evaluation order. -/
def checkin_payload (googleKey : String)
    (body location_value message_value : JVal) : Except PyErr JVal :=
  match display_name_of body with
  | .error er => .error er
  | .ok display_name =>
    match checkin_embed googleKey location_value message_value display_name with
    | .error er => .error er
    | .ok embed =>
      match pyGetD body "attachments" (.jarr []) with
      | .error er => .error er
      | .ok attachments =>
        match build_attachment_embeds attachments with
        | .error er => .error er
        | .ok extra =>
          .ok (.jobj
            [("type", .jnum 4),
             ("data", .jobj
               [("content", .jstr (pyStr display_name ++ " just checked in!")),
                ("embeds", .jarr (embed :: extra))])])

/-- The ephemeral instructional payload sent when no location was provided
(source lines 235-248). -/
def usage_message : JVal :=
  .jobj
    [("type", .jnum 4),
     ("data", .jobj
       [("content", .jstr ("It looks like you didn\x27t provide a location.\n\n**Usage:** `/checkin location:<place> [message:<text>]`\nFor example: `/checkin location:\"Madison Square Garden\" message:\"Having a great time!\"`")),
        ("flags", .jnum 64)])]

/-- The no-location tail of the command branch (source lines 233-252):
sends `usage_message` through the callback and acknowledges with an empty
200; a transport failure of the POST propagates. -/
def no_location_reply (ctx : Ctx) (interaction_id interaction_token : JVal) :
    Except PyErr LambdaResponse × List NetCall :=
  match send_interaction_response ctx interaction_id interaction_token usage_message with
  | (.error er, calls) => (.error er, calls)
  | (.ok _, calls) => (.ok cmdAckResp, calls)

/-- The autocomplete branch of `lambda_handler` (source lines 141-158):
`options = body["data"].get("options", [])`, the choices computed from the
first option's partial text when options are truthy, and the synchronous
JSON reply. -/
def handle_autocomplete (ctx : Ctx) (body : JVal) :
    Except PyErr LambdaResponse × List NetCall :=
  match pyGetItem body "data" with
  | .error er => (.error er, [])
  | .ok data =>
    match pyGetD data "options" (.jarr []) with
    | .error er => (.error er, [])
    | .ok options =>
      if jTruthy options then
        match pyIndex0 options with
        | .error er => (.error er, [])
        | .ok opt0 =>
          match pyGetD opt0 "value" (.jstr "") with
          | .error er => (.error er, [])
          | .ok partial_text =>
            match get_location_suggestions ctx partial_text with
            | (.error er, calls) => (.error er, calls)
            | (.ok suggestions, calls) =>
              let choices := suggestions.map (fun s => JVal.jobj [("name", s), ("value", s)])
              (.ok (autocompleteResp choices), calls)
      else (.ok (autocompleteResp []), [])

/-- The slash-command branch of `lambda_handler` (source lines 161-252):
`data = body.get("data", {})`, `options = data.get("options", [])`, the
option scan, and either the check-in payload POST followed by the empty 200
acknowledgment, or the no-location instructional reply. -/
def handle_command (ctx : Ctx) (body interaction_id interaction_token : JVal) :
    Except PyErr LambdaResponse × List NetCall :=
  match pyGetD body "data" (.jobj []) with
  | .error er => (.error er, [])
  | .ok data =>
    match pyGetD data "options" (.jarr []) with
    | .error er => (.error er, [])
    | .ok options =>
      if jTruthy options then
        match iter_options options with
        | .error er => (.error er, [])
        | .ok (location_value, message_value) =>
          if jTruthy location_value then
            match checkin_payload ctx.googleKey body location_value message_value with
            | .error er => (.error er, [])
            | .ok payload =>
              match send_interaction_response ctx interaction_id interaction_token payload with
              | (.error er, calls) => (.error er, calls)
              | (.ok _, calls) => (.ok cmdAckResp, calls)
          else no_location_reply ctx interaction_id interaction_token
      else no_location_reply ctx interaction_id interaction_token

/-- `lambda_handler` (source lines 118-260): signature check (401 on
`False`, exception propagation on a raise), `json.loads(event["body"])`
(`KeyError` when the body key is absent), the three `body.get` reads, and
the dispatch on interaction type 1 / 4 / 2 with the 400 fallback. -/
def lambda_handler (ctx : Ctx) (e : Event) :
    Except PyErr LambdaResponse × List NetCall :=
  match verify_signature ctx e with
  | .error er => (.error er, [])
  | .ok false => (.ok resp401, [])
  | .ok true =>
    match e.body with
    | none => (.error .keyError, [])
    | some bodyStr =>
      match ctx.json_loads bodyStr with
      | .error er => (.error er, [])
      | .ok body =>
        match pyGetD body "type" .jnull with
        | .error er => (.error er, [])
        | .ok interaction_type =>
          match pyGetD body "id" .jnull with
          | .error er => (.error er, [])
          | .ok interaction_id =>
            match pyGetD body "token" .jnull with
            | .error er => (.error er, [])
            | .ok interaction_token =>
              if pyEqInt interaction_type 1 then (.ok pingResp, [])
              else if pyEqInt interaction_type 4 then handle_autocomplete ctx body
              else if pyEqInt interaction_type 2 then
                handle_command ctx body interaction_id interaction_token
              else (.ok unhandledResp, [])

/-- A 128-character hex string decoding to 64 zero bytes (a well-formed
Ed25519 signature length). -/
def hex128 : String :=
  "00000000000000000000000000000000000000000000000000000000000000000000000000000000000000000000000000000000000000000000000000000000"

/-- A context whose crypto check always rejects, whose `json.loads` always
raises, and whose autocomplete transport always fails. -/
def ctxReject : Ctx where
  sigValid := fun _ _ => false
  json_loads := fun _ => .error .valueError
  placesGet := fun _ => .transportError
  postCallback := fun _ _ _ => .ok ()
  googleKey := "KEY"

/-- A context that accepts every signature and parses every body as a ping
payload. -/
def ctxPing : Ctx where
  sigValid := fun _ _ => true
  json_loads := fun _ => .ok (.jobj [("type", .jnum 1)])
  placesGet := fun _ => .transportError
  postCallback := fun _ _ _ => .ok ()
  googleKey := "KEY"

/-- An event whose signature header is not valid hex. -/
def evBadHex : Event where
  headers := [("x-signature-ed25519", "zz"), ("x-signature-timestamp", "0")]
  body := some "x"

/-- An event carrying a well-formed 64-byte hex signature. -/
def evSigOk : Event where
  headers := [("x-signature-ed25519", hex128), ("x-signature-timestamp", "0")]
  body := some "x"

example : bytesFromHex hex128 = some (List.replicate 64 0) := by rfl
example : verify_signature ctxReject evSigOk = .ok false := by rfl
example : verify_signature ctxPing evSigOk = .ok true := by rfl

/-- C1: counterexample.  On a request whose `x-signature-ed25519` header is
the malformed hex string `"zz"`, `verify_signature` does not return a
boolean: `bytes.fromhex` raises `ValueError`, which the
`except BadSignatureError` clause does not catch, so the exception escapes
into the dispatcher. -/
theorem C1_counterexample :
    verify_signature ctxReject evBadHex = .error PyErr.valueError := by rfl

/-- C1 (amended): for every request, either the signature header hex-decodes
to exactly 64 bytes — and then `verify_signature` returns the boolean
verdict of the cryptographic check over the concatenated timestamp and body
(in particular `false` on a cryptographic mismatch, with no exception) — or
`verify_signature` raises `ValueError` (malformed hex, wrong signature
length, or a missing signature header, which decodes to 0 bytes). -/
theorem C1_amended (ctx : Ctx) (e : Event) :
    (∃ bs, bytesFromHex (headerOrEmpty e "x-signature-ed25519") = some bs ∧
      bs.length = 64 ∧
      verify_signature ctx e =
        .ok (ctx.sigValid bs (headerOrEmpty e "x-signature-timestamp" ++ e.body.getD ""))) ∨
    verify_signature ctx e = .error PyErr.valueError := by
  rcases h : bytesFromHex (headerOrEmpty e "x-signature-ed25519") with _ | bs
  · right
    simp only [verify_signature]
    rw [h]
  · by_cases hl : bs.length = 64
    · left
      refine ⟨bs, rfl, hl, ?_⟩
      simp only [verify_signature]
      rw [h]
      simp only [if_pos hl]
      cases hv : ctx.sigValid bs (headerOrEmpty e "x-signature-timestamp" ++ e.body.getD "") <;>
        simp [hv]
    · right
      simp only [verify_signature]
      rw [h]
      simp [hl]

/-- C2: whenever the signature check returns `false`, `lambda_handler`
returns exactly the 401 response and performs no outbound network call
(neither the autocomplete GET nor the callback POST appears in the trace). -/
theorem C2_invalid_sig_401 (ctx : Ctx) (e : Event)
    (h : verify_signature ctx e = .ok false) :
    lambda_handler ctx e = (.ok resp401, []) ∧ resp401.statusCode = 401 := by
  constructor
  · unfold lambda_handler
    rw [h]
  · rfl

/-- C2 witness: a concrete request rejected by the crypto check yields the
401 reply with an empty call trace. -/
theorem C2_witness :
    lambda_handler ctxReject evSigOk = (.ok resp401, []) ∧ resp401.statusCode = 401 :=
  C2_invalid_sig_401 ctxReject evSigOk (by rfl)

/-- C3: counterexample.  With truthy input `"a"` and a failing transport,
`get_location_suggestions` does not return the empty list: the
`requests.get` exception propagates (there is no try/except in the
function). -/
theorem C3_counterexample :
    get_location_suggestions ctxReject (.jstr "a") =
      (.error PyErr.requestsError, [NetCall.placesGet (.jstr "a")]) := by rfl

/-- C3 (amended): empty (falsy) input short-circuits to the empty list with
no network call; but on truthy input a transport error propagates the
requests exception, and an undecodable response body propagates the JSON
decode exception — neither is converted to the empty list. -/
theorem C3_amended (ctx : Ctx) (input_text : JVal) :
    (jTruthy input_text = false → get_location_suggestions ctx input_text = (.ok [], [])) ∧
    (jTruthy input_text = true → ctx.placesGet input_text = .transportError →
      get_location_suggestions ctx input_text =
        (.error PyErr.requestsError, [NetCall.placesGet input_text])) ∧
    (jTruthy input_text = true → ctx.placesGet input_text = .response none →
      get_location_suggestions ctx input_text =
        (.error PyErr.jsonDecodeError, [NetCall.placesGet input_text])) := by
  refine ⟨fun h => ?_, fun h hp => ?_, fun h hp => ?_⟩
  · unfold get_location_suggestions
    simp [h]
  · unfold get_location_suggestions
    simp [h, hp]
  · unfold get_location_suggestions
    simp [h, hp]

/-- C3 witness: the amended theorem applied at input `"a"` and the
always-failing transport. -/
theorem C3_witness :
    get_location_suggestions ctxReject (.jstr "a") =
      (.error PyErr.requestsError, [NetCall.placesGet (.jstr "a")]) :=
  (C3_amended ctxReject (.jstr "a")).2.1 (by rfl) (by rfl)

/-- Every normal return of the autocomplete branch is an autocomplete reply. -/
theorem handle_autocomplete_ok_shape (ctx : Ctx) (body : JVal) (r : LambdaResponse)
    (h : (handle_autocomplete ctx body).1 = .ok r) :
    ∃ cs, r = autocompleteResp cs := by
  unfold handle_autocomplete at h
  repeat' split at h
  all_goals first
    | exact ⟨_, (Except.ok.inj h).symm⟩
    | exact Except.noConfusion h

/-- Every normal return of the no-location tail is the empty 200 ack. -/
theorem no_location_reply_ok_shape (ctx : Ctx) (iid itok : JVal) (r : LambdaResponse)
    (h : (no_location_reply ctx iid itok).1 = .ok r) : r = cmdAckResp := by
  unfold no_location_reply at h
  repeat' split at h
  all_goals first
    | exact (Except.ok.inj h).symm
    | exact Except.noConfusion h

/-- Every normal return of the command branch is the empty 200 ack. -/
theorem handle_command_ok_shape (ctx : Ctx) (body iid itok : JVal) (r : LambdaResponse)
    (h : (handle_command ctx body iid itok).1 = .ok r) : r = cmdAckResp := by
  unfold handle_command at h
  repeat' split at h
  all_goals first
    | exact (Except.ok.inj h).symm
    | exact no_location_reply_ok_shape ctx iid itok r h
    | exact Except.noConfusion h

/-- C4: counterexample.  On a request whose signature header is malformed
hex, `lambda_handler` produces zero responses: the uncaught `ValueError`
from `verify_signature` escapes the handler. -/
theorem C4_counterexample :
    (lambda_handler ctxReject evBadHex).1 = .error PyErr.valueError := by rfl

/-- C4 (amended): whenever `lambda_handler` returns normally it returns
exactly one response, and that response is exactly one of the five reply
kinds (401 signature failure, ping acknowledgment, autocomplete reply,
empty 200 command acknowledgment, 400 unhandled-type error); however, the
handler can also raise an unhandled exception and produce zero responses
(for example on a malformed hex signature header). -/
theorem C4_amended (ctx : Ctx) (e : Event) (r : LambdaResponse)
    (h : (lambda_handler ctx e).1 = .ok r) :
    r = resp401 ∨ r = pingResp ∨ (∃ cs, r = autocompleteResp cs) ∨
    r = cmdAckResp ∨ r = unhandledResp := by
  unfold lambda_handler at h
  repeat' split at h
  all_goals first
    | exact Except.noConfusion h
    | exact Or.inl (Except.ok.inj h).symm
    | exact Or.inr (Or.inl (Except.ok.inj h).symm)
    | exact Or.inr (Or.inr (Or.inl (handle_autocomplete_ok_shape ctx _ r h)))
    | exact Or.inr (Or.inr (Or.inr (Or.inl (handle_command_ok_shape ctx _ _ _ r h))))
    | exact Or.inr (Or.inr (Or.inr (Or.inr (Except.ok.inj h).symm)))

/-- C4 witness: the amended theorem applied to a concrete verified ping
request, whose unique response is the ping acknowledgment. -/
theorem C4_witness :
    pingResp = resp401 ∨ pingResp = pingResp ∨
    (∃ cs, pingResp = autocompleteResp cs) ∨
    pingResp = cmdAckResp ∨ pingResp = unhandledResp :=
  C4_amended ctxPing evSigOk pingResp (by rfl)

/-- A `d.get(...)` that returned normally implies `d` is a dict. -/
theorem pyGetD_ok_obj (v : JVal) (k : String) (d x : JVal)
    (h : pyGetD v k d = .ok x) : ∃ fs, v = .jobj fs := by
  cases v <;> first
    | exact ⟨_, rfl⟩
    | simp [pyGetD] at h

/-- A value equal (in the Python sense) to one int literal is unequal to any
other int literal. -/
theorem pyEqInt_ne (v : JVal) (a b : Int) (hab : a ≠ b) (h : pyEqInt v a = true) :
    pyEqInt v b = false := by
  cases v with
  | jnum m => simp [pyEqInt] at h ⊢; omega
  | jbool c => cases c <;> simp [pyEqInt] at h ⊢ <;> omega
  | jnull => simp [pyEqInt] at h
  | jstr s => simp [pyEqInt] at h
  | jarr xs => simp [pyEqInt] at h
  | jobj fs => simp [pyEqInt] at h

/-- The description comprehension preserves length when it succeeds. -/
theorem extractDescriptions_length (ps ds : List JVal)
    (h : extractDescriptions ps = .ok ds) : ds.length = ps.length := by
  induction ps generalizing ds with
  | nil =>
    simp only [extractDescriptions] at h
    cases h
    rfl
  | cons p ps ih =>
    unfold extractDescriptions at h
    cases hd : pyGetItem p "description" with
    | error er => rw [hd] at h; exact Except.noConfusion h
    | ok d =>
      rw [hd] at h
      cases hr : extractDescriptions ps with
      | error er => rw [hr] at h; exact Except.noConfusion h
      | ok ds2 =>
        rw [hr] at h
        cases h
        simp [ih ds2 hr]

/-- A successful slice `v[:n]` yields at most `n` elements. -/
theorem pySlice_length (v : JVal) (n : Nat) (xs : List JVal)
    (h : pySlice v n = .ok xs) : xs.length ≤ n := by
  cases v with
  | jarr ys =>
    simp only [pySlice] at h
    cases h
    simp [List.length_take]
  | jstr s =>
    simp only [pySlice] at h
    cases h
    simp [List.length_take]
  | jnull => simp [pySlice] at h
  | jbool b => simp [pySlice] at h
  | jnum m => simp [pySlice] at h
  | jobj fs => simp [pySlice] at h

/-- A successful suggestion lookup returns at most 5 suggestions
(`predictions[:5]`). -/
theorem get_location_suggestions_length (ctx : Ctx) (v : JVal)
    (l : List JVal) (calls : List NetCall)
    (h : get_location_suggestions ctx v = (.ok l, calls)) : l.length ≤ 5 := by
  unfold get_location_suggestions at h
  repeat' split at h
  all_goals cases h
  · simp
  · rename_i x3 data hplaces x2 preds hpred x1 ps hslice x0 hex
    rw [extractDescriptions_length ps _ hex]
    exact pySlice_length preds 5 ps hslice

/-- Symbolic run: a verified request whose parsed body has interaction type
4 dispatches to the autocomplete branch. -/
theorem lambda_handler_type4 (ctx : Ctx) (e : Event) (bs : String) (body ty : JVal)
    (hv : verify_signature ctx e = .ok true)
    (hb : e.body = some bs)
    (hl : ctx.json_loads bs = .ok body)
    (hty : pyGetD body "type" .jnull = .ok ty)
    (h4 : pyEqInt ty 4 = true) :
    lambda_handler ctx e = handle_autocomplete ctx body := by
  obtain ⟨fs, rfl⟩ := pyGetD_ok_obj body "type" .jnull ty hty
  have h1 : pyEqInt ty 1 = false := pyEqInt_ne ty 4 1 (by decide) h4
  simp only [pyGetD, Except.ok.injEq] at hty
  simp only [lambda_handler, hv, hb, hl, pyGetD, hty, h1, h4, Bool.false_eq_true,
    if_false, if_true]

/-- C5: on every verified autocomplete request (type 4), whenever
`lambda_handler` returns a response at all, that response is an autocomplete
reply whose choice list has length at most 5 and whose every choice has its
`name` field equal to its `value` field. -/
theorem C5_autocomplete_choices (ctx : Ctx) (e : Event) (bs : String)
    (body ty : JVal) (r : LambdaResponse)
    (hv : verify_signature ctx e = .ok true)
    (hb : e.body = some bs)
    (hl : ctx.json_loads bs = .ok body)
    (hty : pyGetD body "type" .jnull = .ok ty)
    (h4 : pyEqInt ty 4 = true)
    (hr : (lambda_handler ctx e).1 = .ok r) :
    ∃ cs, r = autocompleteResp cs ∧ cs.length ≤ 5 ∧
      ∀ c ∈ cs, ∃ s, c = JVal.jobj [("name", s), ("value", s)] := by
  rw [lambda_handler_type4 ctx e bs body ty hv hb hl hty h4] at hr
  unfold handle_autocomplete at hr
  cases hd : pyGetItem body "data" with
  | error er => simp [hd] at hr
  | ok data =>
    simp only [hd] at hr
    cases ho : pyGetD data "options" (.jarr []) with
    | error er => simp [ho] at hr
    | ok options =>
      simp only [ho] at hr
      by_cases ht : jTruthy options = true
      · rw [if_pos ht] at hr
        cases hi : pyIndex0 options with
        | error er => simp [hi] at hr
        | ok opt0 =>
          simp only [hi] at hr
          cases hpv : pyGetD opt0 "value" (.jstr "") with
          | error er => simp [hpv] at hr
          | ok partial_text =>
            simp only [hpv] at hr
            rcases hgs : get_location_suggestions ctx partial_text with ⟨res, calls⟩
            simp only [hgs] at hr
            cases res with
            | error er => simp at hr
            | ok suggestions =>
              simp only [] at hr
              cases hr
              refine ⟨suggestions.map (fun s => JVal.jobj [("name", s), ("value", s)]),
                rfl, ?_, ?_⟩
              · simpa using
                  get_location_suggestions_length ctx partial_text suggestions calls hgs
              · intro c hc
                obtain ⟨s, _, rfl⟩ := List.mem_map.mp hc
                exact ⟨s, rfl⟩
      · rw [if_neg ht] at hr
        cases hr
        exact ⟨[], rfl, by simp, by simp⟩

/-- C6: on every verified autocomplete request whose options list is missing
or empty (falsy), or whose first option has an empty (falsy) partial text,
`lambda_handler` returns the autocomplete reply with the empty choice list
and makes no network call at all. -/
theorem C6_empty_input_no_call (ctx : Ctx) (e : Event) (bs : String)
    (body ty data opts : JVal)
    (hv : verify_signature ctx e = .ok true)
    (hb : e.body = some bs)
    (hl : ctx.json_loads bs = .ok body)
    (hty : pyGetD body "type" .jnull = .ok ty)
    (h4 : pyEqInt ty 4 = true)
    (hd : pyGetItem body "data" = .ok data)
    (ho : pyGetD data "options" (.jarr []) = .ok opts)
    (hcase : jTruthy opts = false ∨
      ∃ o rest v, opts = .jarr (o :: rest) ∧ pyGetD o "value" (.jstr "") = .ok v ∧
        jTruthy v = false) :
    lambda_handler ctx e = (.ok (autocompleteResp []), []) := by
  rw [lambda_handler_type4 ctx e bs body ty hv hb hl hty h4]
  unfold handle_autocomplete
  rcases hcase with hfalse | ⟨o, rest, v, rfl, hval, hvf⟩
  · simp [hd, ho, hfalse]
  · have htr : jTruthy (JVal.jarr (o :: rest)) = true := by simp [jTruthy]
    have hi : pyIndex0 (JVal.jarr (o :: rest)) = .ok o := rfl
    have hemp : get_location_suggestions ctx v = (.ok [], []) := by
      unfold get_location_suggestions
      rw [if_pos hvf]
    simp only [hd, ho, htr, if_true, hi, hval, hemp]
    simp

/-- A prediction object with the given description. -/
def predObj (s : String) : JVal := .jobj [("description", .jstr s)]

/-- A parsed autocomplete request body with partial text `"Mad"`. -/
def autoBody : JVal :=
  .jobj [("type", .jnum 4), ("id", .jstr "I"), ("token", .jstr "T"),
         ("data", .jobj
           [("options", .jarr [.jobj [("name", .jstr "location"), ("value", .jstr "Mad")]])])]

/-- A context whose autocomplete service returns seven predictions. -/
def ctxAuto : Ctx where
  sigValid := fun _ _ => true
  json_loads := fun _ => .ok autoBody
  placesGet := fun _ => .response (some (.jobj [("predictions", .jarr
    [predObj "a", predObj "b", predObj "c", predObj "d", predObj "e", predObj "f",
     predObj "g"])]))
  postCallback := fun _ _ _ => .ok ()
  googleKey := "KEY"

/-- The five choices produced from the seven predictions of `ctxAuto`. -/
def choicesABCDE : List JVal :=
  [.jobj [("name", .jstr "a"), ("value", .jstr "a")],
   .jobj [("name", .jstr "b"), ("value", .jstr "b")],
   .jobj [("name", .jstr "c"), ("value", .jstr "c")],
   .jobj [("name", .jstr "d"), ("value", .jstr "d")],
   .jobj [("name", .jstr "e"), ("value", .jstr "e")]]

/-- C5 witness: a concrete verified autocomplete request against a service
returning seven predictions yields exactly five name-equals-value choices. -/
theorem C5_witness :
    ∃ cs, autocompleteResp choicesABCDE = autocompleteResp cs ∧ cs.length ≤ 5 ∧
      ∀ c ∈ cs, ∃ s, c = JVal.jobj [("name", s), ("value", s)] :=
  C5_autocomplete_choices ctxAuto evSigOk "x" autoBody (.jnum 4)
    (autocompleteResp choicesABCDE) rfl rfl rfl rfl rfl (by rfl)

/-- A parsed autocomplete request body with empty partial text. -/
def autoBodyEmpty : JVal :=
  .jobj [("type", .jnum 4), ("id", .jstr "I"), ("token", .jstr "T"),
         ("data", .jobj
           [("options", .jarr [.jobj [("name", .jstr "location"), ("value", .jstr "")]])])]

/-- A context for the empty-input witness whose transport would fail if it
were ever used (showing no call is made). -/
def ctxAutoEmpty : Ctx where
  sigValid := fun _ _ => true
  json_loads := fun _ => .ok autoBodyEmpty
  placesGet := fun _ => .transportError
  postCallback := fun _ _ _ => .ok ()
  googleKey := "KEY"

/-- C6 witness: a concrete verified autocomplete request with empty partial
text returns the empty choice list with an empty call trace, even though the
transport would fail if contacted. -/
theorem C6_witness :
    lambda_handler ctxAutoEmpty evSigOk = (.ok (autocompleteResp []), []) :=
  C6_empty_input_no_call ctxAutoEmpty evSigOk "x" autoBodyEmpty (.jnum 4)
    (.jobj [("options", .jarr [.jobj [("name", .jstr "location"), ("value", .jstr "")]])])
    (.jarr [.jobj [("name", .jstr "location"), ("value", .jstr "")]])
    rfl rfl rfl rfl rfl rfl rfl
    (Or.inr ⟨.jobj [("name", .jstr "location"), ("value", .jstr "")], [], .jstr "",
      rfl, rfl, rfl⟩)

/-- Symbolic run: a verified request whose parsed body has interaction type
2 dispatches to the slash-command branch with the body's id and token. -/
theorem lambda_handler_type2 (ctx : Ctx) (e : Event) (bs : String)
    (body ty iid itok : JVal)
    (hv : verify_signature ctx e = .ok true)
    (hb : e.body = some bs)
    (hl : ctx.json_loads bs = .ok body)
    (hty : pyGetD body "type" .jnull = .ok ty)
    (h2 : pyEqInt ty 2 = true)
    (hid : pyGetD body "id" .jnull = .ok iid)
    (htok : pyGetD body "token" .jnull = .ok itok) :
    lambda_handler ctx e = handle_command ctx body iid itok := by
  obtain ⟨fs, rfl⟩ := pyGetD_ok_obj body "type" .jnull ty hty
  have h1 : pyEqInt ty 1 = false := pyEqInt_ne ty 2 1 (by decide) h2
  have h4 : pyEqInt ty 4 = false := pyEqInt_ne ty 2 4 (by decide) h2
  simp only [pyGetD, Except.ok.injEq] at hty hid htok
  simp only [lambda_handler, hv, hb, hl, pyGetD, hty, hid, htok, h1, h2, h4,
    Bool.false_eq_true, if_false, if_true]

/-- When the option scan finds a truthy location and the check-in payload
builds successfully, the command branch performs exactly one callback POST
carrying that payload and acknowledges with the empty 200 (or propagates a
POST transport failure). -/
theorem handle_command_location_send (ctx : Ctx)
    (body iid itok data opts locv msgv pay : JVal)
    (hd : pyGetD body "data" (.jobj []) = .ok data)
    (ho : pyGetD data "options" (.jarr []) = .ok opts)
    (htr : jTruthy opts = true)
    (hio : iter_options opts = .ok (locv, msgv))
    (hloc : jTruthy locv = true)
    (hcp : checkin_payload ctx.googleKey body locv msgv = .ok pay) :
    handle_command ctx body iid itok =
      ((match ctx.postCallback iid itok pay with
        | .ok _ => .ok cmdAckResp
        | .error er => .error er), [NetCall.callbackPost iid itok pay]) := by
  simp only [handle_command, hd, ho, htr, if_true, hio, hloc, hcp,
    send_interaction_response]
  cases hpc : ctx.postCallback iid itok pay <;> simp [hpc]

/-- A list is a prefix of itself followed by anything. -/
theorem strStartsB_append (l r : List Char) : strStartsB (l ++ r) l = true := by
  induction l with
  | nil => simp [strStartsB]
  | cons c cs ih => simp [strStartsB, ih]

/-- A list contains itself as a prefix of any extension. -/
theorem strContainsList_append_right (needle suf : List Char) :
    strContainsList (needle ++ suf) needle = true := by
  cases needle with
  | nil =>
    cases suf with
    | nil => rfl
    | cons c cs =>
      simp only [List.nil_append, strContainsList, Bool.or_eq_true]
      exact Or.inl (by simp [strStartsB])
  | cons n ns =>
    simp only [List.cons_append, strContainsList, Bool.or_eq_true]
    exact Or.inl (by simpa using strStartsB_append (n :: ns) suf)

/-- Containment is preserved by prepending. -/
theorem strContainsList_append_left (pre hay needle : List Char)
    (h : strContainsList hay needle = true) :
    strContainsList (pre ++ hay) needle = true := by
  induction pre with
  | nil => simpa using h
  | cons c cs ih =>
    simp only [List.cons_append, strContainsList, Bool.or_eq_true]
    exact Or.inr ih

/-- A string contains any needle it decomposes around. -/
theorem strContains_of_decomp (hay pre needle suf : String)
    (h : hay.toList = pre.toList ++ (needle.toList ++ suf.toList)) :
    strContains hay needle = true := by
  unfold strContains
  rw [h]
  exact strContainsList_append_left _ _ _ (strContainsList_append_right _ _)

example :
    strContains ("abc" ++ "def" ++ "ghi") "def" = true := by
  apply strContains_of_decomp _ "abc" _ "ghi"
  simp [String.toList, String.data_append]

/-- The check-in payload built for a string location: the description embeds
the literal location and the percent-encoded location in the search URL, the
static-map URL embeds the percent-encoded location twice, and the sliced
attachment embeds follow the main embed. -/
theorem checkin_payload_eq (googleKey : String) (body : JVal) (loc : String)
    (msgv dn atts : JVal) (extra : List JVal)
    (hdn : display_name_of body = .ok dn)
    (hatt : pyGetD body "attachments" (.jarr []) = .ok atts)
    (hext : build_attachment_embeds atts = .ok extra) :
    checkin_payload googleKey body (.jstr loc) msgv = .ok (.jobj
      [("type", .jnum 4),
       ("data", .jobj
         [("content", .jstr (pyStr dn ++ " just checked in!")),
          ("embeds", .jarr (.jobj
            [("title", .jstr checkinTitle),
             ("color", .jnum 0x5865F2),
             ("description", .jstr ("**Location**: " ++ loc ++ "\n**Message**: " ++
               (if jTruthy msgv = true then pyStr msgv else "*No message provided*") ++
               "\n\n[View on Google Maps](https://www.google.com/maps/search/?api=1&query=" ++
               pyQuote loc ++ ")")),
             ("image", .jobj [("url", .jstr
               ("https://maps.googleapis.com/maps/api/staticmap?center=" ++
                pyQuote loc ++ "&zoom=15&size=600x300&markers=color:red|" ++ pyQuote loc ++
                "&key=" ++ googleKey))]),
             ("footer", .jobj [("text", .jstr ("Checked in by " ++ pyStr dn))])] :: extra))])]) := by
  simp only [checkin_payload, hdn, checkin_embed, urlquote, hatt, hext, pyStr]

/-- Pure JSON field lookup (used only to state properties of payloads). -/
def jGet (v : JVal) (k : String) : Option JVal :=
  match v with
  | .jobj fs => List.lookup k fs
  | _ => none

/-- The first element of the `data.embeds` list of a callback payload. -/
def payload_first_embed (p : JVal) : Option JVal :=
  match jGet p "data" with
  | some d =>
    match jGet d "embeds" with
    | some (.jarr (emb :: _)) => some emb
    | _ => none
  | none => none

/-- The `description` string of the first embed of a callback payload. -/
def payload_description (p : JVal) : Option String :=
  match payload_first_embed p with
  | some emb =>
    match jGet emb "description" with
    | some (.jstr s) => some s
    | _ => none
  | none => none

/-- The `image.url` string of the first embed of a callback payload. -/
def payload_map_url (p : JVal) : Option String :=
  match payload_first_embed p with
  | some emb =>
    match jGet emb "image" with
    | some img =>
      match jGet img "url" with
      | some (.jstr s) => some s
      | _ => none
    | none => none
  | none => none

/-- C7: on every verified command submission (type 2) whose options yield a
non-empty string location, the embed description of the posted payload
contains the location literally and its percent-encoded form inside the
Google Maps search URL, and the static-map URL contains the percent-encoded
form (twice); spaces are encoded as `%20`, e.g. `Madison Square Garden`
becomes `Madison%20Square%20Garden`. -/
theorem C7_location_encoding (ctx : Ctx) (e : Event) (bs : String)
    (body ty iid itok data opts msgv dn atts : JVal) (loc : String) (extra : List JVal)
    (hv : verify_signature ctx e = .ok true)
    (hb : e.body = some bs)
    (hl : ctx.json_loads bs = .ok body)
    (hty : pyGetD body "type" .jnull = .ok ty)
    (h2 : pyEqInt ty 2 = true)
    (hid : pyGetD body "id" .jnull = .ok iid)
    (htok : pyGetD body "token" .jnull = .ok itok)
    (hd : pyGetD body "data" (.jobj []) = .ok data)
    (ho : pyGetD data "options" (.jarr []) = .ok opts)
    (htr : jTruthy opts = true)
    (hio : iter_options opts = .ok (.jstr loc, msgv))
    (hloc : loc ≠ "")
    (hdn : display_name_of body = .ok dn)
    (hatt : pyGetD body "attachments" (.jarr []) = .ok atts)
    (hext : build_attachment_embeds atts = .ok extra) :
    ∃ pay descr mapurl,
      (lambda_handler ctx e).2 = [NetCall.callbackPost iid itok pay] ∧
      payload_description pay = some descr ∧
      descr = "**Location**: " ++ loc ++ "\n**Message**: " ++
        (if jTruthy msgv = true then pyStr msgv else "*No message provided*") ++
        "\n\n[View on Google Maps](https://www.google.com/maps/search/?api=1&query=" ++
        pyQuote loc ++ ")" ∧
      payload_map_url pay = some mapurl ∧
      mapurl = "https://maps.googleapis.com/maps/api/staticmap?center=" ++
        pyQuote loc ++ "&zoom=15&size=600x300&markers=color:red|" ++ pyQuote loc ++
        "&key=" ++ ctx.googleKey ∧
      strContains descr loc = true ∧
      strContains descr (pyQuote loc) = true ∧
      strContains mapurl (pyQuote loc) = true ∧
      pyQuote "Madison Square Garden" = "Madison%20Square%20Garden" := by
  rw [lambda_handler_type2 ctx e bs body ty iid itok hv hb hl hty h2 hid htok]
  have hloct : jTruthy (JVal.jstr loc) = true := by simp [jTruthy, hloc]
  have hcp := checkin_payload_eq ctx.googleKey body loc msgv dn atts extra hdn hatt hext
  rw [handle_command_location_send ctx body iid itok data opts (.jstr loc) msgv _
    hd ho htr hio hloct hcp]
  refine ⟨_, _, _, rfl, ?_, rfl, ?_, rfl, ?_, ?_, ?_, rfl⟩
  · simp [payload_description, payload_first_embed, jGet, List.lookup]
  · simp [payload_map_url, payload_first_embed, jGet, List.lookup]
  · apply strContains_of_decomp _ "**Location**: " _
      ("\n**Message**: " ++
        (if jTruthy msgv = true then pyStr msgv else "*No message provided*") ++
        "\n\n[View on Google Maps](https://www.google.com/maps/search/?api=1&query=" ++
        pyQuote loc ++ ")")
    simp [String.toList, String.data_append, List.append_assoc]
  · apply strContains_of_decomp _
      ("**Location**: " ++ loc ++ "\n**Message**: " ++
        (if jTruthy msgv = true then pyStr msgv else "*No message provided*") ++
        "\n\n[View on Google Maps](https://www.google.com/maps/search/?api=1&query=") _ ")"
    simp [String.toList, String.data_append, List.append_assoc]
  · apply strContains_of_decomp _
      "https://maps.googleapis.com/maps/api/staticmap?center=" _
      ("&zoom=15&size=600x300&markers=color:red|" ++ pyQuote loc ++ "&key=" ++ ctx.googleKey)
    simp [String.toList, String.data_append, List.append_assoc]

/-- A parsed command body with location and message options and a member
with a null nick. -/
def cmdBody : JVal :=
  .jobj [("type", .jnum 2), ("id", .jstr "I"), ("token", .jstr "T"),
         ("data", .jobj [("options", .jarr
           [.jobj [("name", .jstr "location"), ("value", .jstr "Madison Square Garden")],
            .jobj [("name", .jstr "message"), ("value", .jstr "Fun!")]])]),
         ("member", .jobj [("nick", .jnull), ("user", .jobj [("username", .jstr "alice")])])]

/-- A context that parses every body as `cmdBody`. -/
def ctxCmd : Ctx where
  sigValid := fun _ _ => true
  json_loads := fun _ => .ok cmdBody
  placesGet := fun _ => .transportError
  postCallback := fun _ _ _ => .ok ()
  googleKey := "KEY"

/-- C7 witness: the concrete check-in for "Madison Square Garden" carries
the literal location in the description and `Madison%20Square%20Garden` in
both URLs. -/
theorem C7_witness :
    ∃ pay descr mapurl,
      (lambda_handler ctxCmd evSigOk).2 =
        [NetCall.callbackPost (.jstr "I") (.jstr "T") pay] ∧
      payload_description pay = some descr ∧
      descr = "**Location**: " ++ "Madison Square Garden" ++ "\n**Message**: " ++
        (if jTruthy (.jstr "Fun!") = true then pyStr (.jstr "Fun!")
         else "*No message provided*") ++
        "\n\n[View on Google Maps](https://www.google.com/maps/search/?api=1&query=" ++
        pyQuote "Madison Square Garden" ++ ")" ∧
      payload_map_url pay = some mapurl ∧
      mapurl = "https://maps.googleapis.com/maps/api/staticmap?center=" ++
        pyQuote "Madison Square Garden" ++ "&zoom=15&size=600x300&markers=color:red|" ++
        pyQuote "Madison Square Garden" ++ "&key=" ++ ctxCmd.googleKey ∧
      strContains descr "Madison Square Garden" = true ∧
      strContains descr (pyQuote "Madison Square Garden") = true ∧
      strContains mapurl (pyQuote "Madison Square Garden") = true ∧
      pyQuote "Madison Square Garden" = "Madison%20Square%20Garden" :=
  C7_location_encoding ctxCmd evSigOk "x" cmdBody (.jnum 2) (.jstr "I") (.jstr "T")
    (.jobj [("options", .jarr
      [.jobj [("name", .jstr "location"), ("value", .jstr "Madison Square Garden")],
       .jobj [("name", .jstr "message"), ("value", .jstr "Fun!")]])])
    (.jarr
      [.jobj [("name", .jstr "location"), ("value", .jstr "Madison Square Garden")],
       .jobj [("name", .jstr "message"), ("value", .jstr "Fun!")]])
    (.jstr "Fun!") (.jstr "alice") (.jarr []) "Madison Square Garden" []
    rfl rfl rfl rfl rfl rfl rfl rfl rfl rfl rfl (by decide) rfl rfl rfl

/-- If no option of the list is named `message`, the option scan leaves the
message accumulator unchanged. -/
theorem scanOptions_msg_const (os : List JVal) (loc msg loc2 msg2 : JVal)
    (h : scanOptions os loc msg = .ok (loc2, msg2))
    (hnm : ∀ o ∈ os, ∀ v, pyGetItem o "name" = .ok v → pyEqStr v "message" = false) :
    msg2 = msg := by
  induction os generalizing loc with
  | nil =>
    simp only [scanOptions] at h
    cases h
    rfl
  | cons o os ih =>
    unfold scanOptions at h
    cases hn : pyGetItem o "name" with
    | error er => rw [hn] at h; exact Except.noConfusion h
    | ok nm =>
      simp only [hn] at h
      have hmsg : pyEqStr nm "message" = false :=
        hnm o (List.mem_cons_self o os) nm hn
      by_cases hl : pyEqStr nm "location" = true
      · rw [if_pos hl] at h
        cases hv : pyGetItem o "value" with
        | error er => rw [hv] at h; exact Except.noConfusion h
        | ok v =>
          simp only [hv] at h
          exact ih v h (fun o2 ho2 => hnm o2 (List.mem_cons_of_mem o ho2))
      · rw [if_neg hl, hmsg] at h
        simp only [Bool.false_eq_true, if_false] at h
        exact ih loc h (fun o2 ho2 => hnm o2 (List.mem_cons_of_mem o ho2))

/-- C8 (amended): on every verified command submission with a location
option but no `message` option, the posted embed description contains the
placeholder `*No message provided*` (capital N, wrapped in asterisks)
verbatim rather than an empty field. -/
theorem C8_no_message_placeholder (ctx : Ctx) (e : Event) (bs : String)
    (body ty iid itok data msgv dn atts : JVal) (os : List JVal) (loc : String)
    (extra : List JVal)
    (hv : verify_signature ctx e = .ok true)
    (hb : e.body = some bs)
    (hl : ctx.json_loads bs = .ok body)
    (hty : pyGetD body "type" .jnull = .ok ty)
    (h2 : pyEqInt ty 2 = true)
    (hid : pyGetD body "id" .jnull = .ok iid)
    (htok : pyGetD body "token" .jnull = .ok itok)
    (hd : pyGetD body "data" (.jobj []) = .ok data)
    (ho : pyGetD data "options" (.jarr []) = .ok (.jarr os))
    (htr : jTruthy (.jarr os) = true)
    (hio : iter_options (.jarr os) = .ok (.jstr loc, msgv))
    (hnm : ∀ o ∈ os, ∀ v, pyGetItem o "name" = .ok v → pyEqStr v "message" = false)
    (hloc : loc ≠ "")
    (hdn : display_name_of body = .ok dn)
    (hatt : pyGetD body "attachments" (.jarr []) = .ok atts)
    (hext : build_attachment_embeds atts = .ok extra) :
    ∃ pay descr,
      (lambda_handler ctx e).2 = [NetCall.callbackPost iid itok pay] ∧
      payload_description pay = some descr ∧
      descr = "**Location**: " ++ loc ++ "\n**Message**: " ++ "*No message provided*" ++
        "\n\n[View on Google Maps](https://www.google.com/maps/search/?api=1&query=" ++
        pyQuote loc ++ ")" ∧
      strContains descr "*No message provided*" = true := by
  have hmsg : msgv = .jstr "" :=
    scanOptions_msg_const os .jnull (.jstr "") (.jstr loc) msgv hio hnm
  subst hmsg
  rw [lambda_handler_type2 ctx e bs body ty iid itok hv hb hl hty h2 hid htok]
  have hloct : jTruthy (JVal.jstr loc) = true := by simp [jTruthy, hloc]
  have hcp := checkin_payload_eq ctx.googleKey body loc (.jstr "") dn atts extra hdn hatt hext
  rw [handle_command_location_send ctx body iid itok data (.jarr os) (.jstr loc)
    (.jstr "") _ hd ho htr hio hloct hcp]
  refine ⟨_, "**Location**: " ++ loc ++ "\n**Message**: " ++ "*No message provided*" ++
    "\n\n[View on Google Maps](https://www.google.com/maps/search/?api=1&query=" ++
    pyQuote loc ++ ")", rfl, ?_, rfl, ?_⟩
  · simp [payload_description, payload_first_embed, jGet, List.lookup, jTruthy]
  · apply strContains_of_decomp _ ("**Location**: " ++ loc ++ "\n**Message**: ") _
      ("\n\n[View on Google Maps](https://www.google.com/maps/search/?api=1&query=" ++
        pyQuote loc ++ ")")
    simp [String.toList, String.data_append, List.append_assoc]

/-- A parsed command body with a location option and no message option. -/
def cmdBodyNoMsg : JVal :=
  .jobj [("type", .jnum 2), ("id", .jstr "I"), ("token", .jstr "T"),
         ("data", .jobj [("options", .jarr
           [.jobj [("name", .jstr "location"), ("value", .jstr "NYC")]])]),
         ("member", .jobj [("user", .jobj [("username", .jstr "alice")])])]

/-- A context that parses every body as `cmdBodyNoMsg`. -/
def ctxCmdNoMsg : Ctx where
  sigValid := fun _ _ => true
  json_loads := fun _ => .ok cmdBodyNoMsg
  placesGet := fun _ => .transportError
  postCallback := fun _ _ _ => .ok ()
  googleKey := "KEY"

/-- The payload of the single callback POST of a trace (junk otherwise). -/
def only_callback_payload (calls : List NetCall) : JVal :=
  match calls with
  | [NetCall.callbackPost _ _ p] => p
  | _ => .jnull

/-- The embed description produced by the concrete no-message check-in. -/
def c8desc : String :=
  (payload_description (only_callback_payload (lambda_handler ctxCmdNoMsg evSigOk).2)).getD ""

/-- C8: counterexample.  The description built for a command without a
message option does not contain the lower-case text "no message provided"
claimed by the spec: the source literal is `*No message provided*` with a
capital N.  The same run shows the placeholder path was taken and the
request was acknowledged normally. -/
theorem C8_counterexample :
    strContains c8desc "no message provided" = false ∧
    strContains c8desc "*No message provided*" = true ∧
    (lambda_handler ctxCmdNoMsg evSigOk).1 = .ok cmdAckResp := by
  refine ⟨?_, ?_, ?_⟩ <;> rfl

/-- C8 witness: the amended theorem applied to the concrete no-message
check-in. -/
theorem C8_witness :
    ∃ pay descr,
      (lambda_handler ctxCmdNoMsg evSigOk).2 =
        [NetCall.callbackPost (.jstr "I") (.jstr "T") pay] ∧
      payload_description pay = some descr ∧
      descr = "**Location**: " ++ "NYC" ++ "\n**Message**: " ++ "*No message provided*" ++
        "\n\n[View on Google Maps](https://www.google.com/maps/search/?api=1&query=" ++
        pyQuote "NYC" ++ ")" ∧
      strContains descr "*No message provided*" = true :=
  C8_no_message_placeholder ctxCmdNoMsg evSigOk "x" cmdBodyNoMsg (.jnum 2)
    (.jstr "I") (.jstr "T")
    (.jobj [("options", .jarr [.jobj [("name", .jstr "location"), ("value", .jstr "NYC")]])])
    (.jstr "") (.jstr "alice") (.jarr [])
    [.jobj [("name", .jstr "location"), ("value", .jstr "NYC")]] "NYC" []
    rfl rfl rfl rfl rfl rfl rfl rfl rfl rfl rfl
    (by
      intro o ho v hv
      simp only [List.mem_singleton] at ho
      subst ho
      cases hv
      rfl)
    (by decide) rfl rfl rfl

/-- The `data.embeds` list of a callback payload. -/
def payload_embeds (p : JVal) : Option (List JVal) :=
  match jGet p "data" with
  | some d =>
    match jGet d "embeds" with
    | some (.jarr es) => some es
    | _ => none
  | none => none

/-- A successful attachment-embed construction yields exactly one image
embed per attachment, in order, from each attachment's `url` field. -/
theorem attImageEmbeds_shape (atts extra : List JVal)
    (h : attImageEmbeds atts = .ok extra) :
    ∃ urls, urls.length = atts.length ∧ extra = urls.map imageEmbed ∧
      ∀ p ∈ List.zip atts urls, pyGetItem p.1 "url" = .ok p.2 := by
  induction atts generalizing extra with
  | nil =>
    simp only [attImageEmbeds] at h
    cases h
    exact ⟨[], rfl, rfl, by simp⟩
  | cons a rest ih =>
    unfold attImageEmbeds at h
    cases hu : pyGetItem a "url" with
    | error er => rw [hu] at h; exact Except.noConfusion h
    | ok u =>
      simp only [hu] at h
      cases hr : attImageEmbeds rest with
      | error er => rw [hr] at h; exact Except.noConfusion h
      | ok es =>
        simp only [hr] at h
        cases h
        obtain ⟨urls, hlen, hmap, hzip⟩ := ih es hr
        refine ⟨u :: urls, by simp [hlen], by simp [hmap], ?_⟩
        intro p hp
        rcases List.mem_cons.mp hp with rfl | hp2
        · exact hu
        · exact hzip p hp2

/-- The main check-in embed as an explicit value (the first element of the
embeds list of the callback payload). -/
def checkin_main_embed (googleKey loc : String) (msgv dn : JVal) : JVal :=
  .jobj
    [("title", .jstr checkinTitle),
     ("color", .jnum 0x5865F2),
     ("description", .jstr ("**Location**: " ++ loc ++ "\n**Message**: " ++
       (if jTruthy msgv = true then pyStr msgv else "*No message provided*") ++
       "\n\n[View on Google Maps](https://www.google.com/maps/search/?api=1&query=" ++
       pyQuote loc ++ ")")),
     ("image", .jobj [("url", .jstr
       ("https://maps.googleapis.com/maps/api/staticmap?center=" ++
        pyQuote loc ++ "&zoom=15&size=600x300&markers=color:red|" ++ pyQuote loc ++
        "&key=" ++ googleKey))]),
     ("footer", .jobj [("text", .jstr ("Checked in by " ++ pyStr dn))])]

/-- C9: on every verified command submission with a location and `n`
attachments, the callback payload's embed list is the main embed followed by
exactly `min n 4` image embeds taken from the first `min n 4` attachments'
URLs in order; attachments beyond the fourth are dropped, and with 6
attachments exactly 4 extra image entries are appended. -/
theorem C9_attachments_capped (ctx : Ctx) (e : Event) (bs : String)
    (body ty iid itok data opts msgv dn : JVal) (attList : List JVal) (loc : String)
    (extra : List JVal)
    (hv : verify_signature ctx e = .ok true)
    (hb : e.body = some bs)
    (hl : ctx.json_loads bs = .ok body)
    (hty : pyGetD body "type" .jnull = .ok ty)
    (h2 : pyEqInt ty 2 = true)
    (hid : pyGetD body "id" .jnull = .ok iid)
    (htok : pyGetD body "token" .jnull = .ok itok)
    (hd : pyGetD body "data" (.jobj []) = .ok data)
    (ho : pyGetD data "options" (.jarr []) = .ok opts)
    (htr : jTruthy opts = true)
    (hio : iter_options opts = .ok (.jstr loc, msgv))
    (hloc : loc ≠ "")
    (hdn : display_name_of body = .ok dn)
    (hatt : pyGetD body "attachments" (.jarr []) = .ok (.jarr attList))
    (hext : build_attachment_embeds (.jarr attList) = .ok extra) :
    ∃ pay urls,
      (lambda_handler ctx e).2 = [NetCall.callbackPost iid itok pay] ∧
      payload_embeds pay =
        some (checkin_main_embed ctx.googleKey loc msgv dn :: urls.map imageEmbed) ∧
      extra = urls.map imageEmbed ∧
      urls.length = min attList.length 4 ∧
      (∀ p ∈ List.zip (attList.take 4) urls, pyGetItem p.1 "url" = .ok p.2) ∧
      (attList.length = 6 → urls.length = 4) := by
  have hext2 : attImageEmbeds (attList.take 4) = .ok extra := hext
  obtain ⟨urls, hlen, hmap, hzip⟩ := attImageEmbeds_shape (attList.take 4) extra hext2
  have hlen2 : urls.length = min attList.length 4 := by
    rw [hlen, List.length_take, Nat.min_comm]
  rw [lambda_handler_type2 ctx e bs body ty iid itok hv hb hl hty h2 hid htok]
  have hloct : jTruthy (JVal.jstr loc) = true := by simp [jTruthy, hloc]
  have hcp := checkin_payload_eq ctx.googleKey body loc msgv dn (.jarr attList) extra
    hdn hatt hext
  rw [handle_command_location_send ctx body iid itok data opts (.jstr loc) msgv _
    hd ho htr hio hloct hcp]
  refine ⟨_, urls, rfl, ?_, hmap, hlen2, hzip, fun h6 => by omega⟩
  rw [hmap]
  simp [payload_embeds, jGet, List.lookup, checkin_main_embed]

/-- An attachment object with the given URL. -/
def attObj (u : String) : JVal := .jobj [("url", .jstr u)]

/-- A parsed command body with a location option and six attachments. -/
def cmdBody6 : JVal :=
  .jobj [("type", .jnum 2), ("id", .jstr "I"), ("token", .jstr "T"),
         ("data", .jobj [("options", .jarr
           [.jobj [("name", .jstr "location"), ("value", .jstr "NYC")]])]),
         ("member", .jobj [("user", .jobj [("username", .jstr "bob")])]),
         ("attachments", .jarr
           [attObj "u1", attObj "u2", attObj "u3", attObj "u4", attObj "u5", attObj "u6"])]

/-- A context that parses every body as `cmdBody6`. -/
def ctxCmd6 : Ctx where
  sigValid := fun _ _ => true
  json_loads := fun _ => .ok cmdBody6
  placesGet := fun _ => .transportError
  postCallback := fun _ _ _ => .ok ()
  googleKey := "KEY"

/-- C9 witness: the concrete check-in with six attachments appends exactly
the four image embeds of the first four attachment URLs. -/
theorem C9_witness :
    ∃ pay urls,
      (lambda_handler ctxCmd6 evSigOk).2 =
        [NetCall.callbackPost (.jstr "I") (.jstr "T") pay] ∧
      payload_embeds pay =
        some (checkin_main_embed ctxCmd6.googleKey "NYC" (.jstr "") (.jstr "bob") ::
          urls.map imageEmbed) ∧
      [imageEmbed (.jstr "u1"), imageEmbed (.jstr "u2"), imageEmbed (.jstr "u3"),
       imageEmbed (.jstr "u4")] = urls.map imageEmbed ∧
      urls.length = min
        [attObj "u1", attObj "u2", attObj "u3", attObj "u4", attObj "u5", attObj "u6"].length 4 ∧
      (∀ p ∈ List.zip ([attObj "u1", attObj "u2", attObj "u3", attObj "u4", attObj "u5",
        attObj "u6"].take 4) urls, pyGetItem p.1 "url" = .ok p.2) ∧
      ([attObj "u1", attObj "u2", attObj "u3", attObj "u4", attObj "u5",
        attObj "u6"].length = 6 → urls.length = 4) :=
  C9_attachments_capped ctxCmd6 evSigOk "x" cmdBody6 (.jnum 2) (.jstr "I") (.jstr "T")
    (.jobj [("options", .jarr [.jobj [("name", .jstr "location"), ("value", .jstr "NYC")]])])
    (.jarr [.jobj [("name", .jstr "location"), ("value", .jstr "NYC")]])
    (.jstr "") (.jstr "bob")
    [attObj "u1", attObj "u2", attObj "u3", attObj "u4", attObj "u5", attObj "u6"]
    "NYC"
    [imageEmbed (.jstr "u1"), imageEmbed (.jstr "u2"), imageEmbed (.jstr "u3"),
     imageEmbed (.jstr "u4")]
    rfl rfl rfl rfl rfl rfl rfl rfl rfl rfl rfl (by decide) rfl rfl rfl

/-- C10: on every verified command submission with a truthy location whose
body lacks a `member` field, or whose member has a null/absent nick and
lacks `user` or `user.username`, `lambda_handler` raises `KeyError` and
returns no response object (and performs no callback POST). -/
theorem C10_missing_member_keyerror (ctx : Ctx) (e : Event) (bs : String)
    (body ty iid itok data opts locv msgv : JVal)
    (hv : verify_signature ctx e = .ok true)
    (hb : e.body = some bs)
    (hl : ctx.json_loads bs = .ok body)
    (hty : pyGetD body "type" .jnull = .ok ty)
    (h2 : pyEqInt ty 2 = true)
    (hid : pyGetD body "id" .jnull = .ok iid)
    (htok : pyGetD body "token" .jnull = .ok itok)
    (hd : pyGetD body "data" (.jobj []) = .ok data)
    (ho : pyGetD data "options" (.jarr []) = .ok opts)
    (htr : jTruthy opts = true)
    (hio : iter_options opts = .ok (locv, msgv))
    (hloc : jTruthy locv = true)
    (hmem : pyGetItem body "member" = .error .keyError ∨
      ∃ mem, pyGetItem body "member" = .ok mem ∧ pyGetD mem "nick" .jnull = .ok .jnull ∧
        (pyGetItem mem "user" = .error .keyError ∨
         ∃ u, pyGetItem mem "user" = .ok u ∧ pyGetItem u "username" = .error .keyError)) :
    lambda_handler ctx e = (.error PyErr.keyError, []) := by
  rw [lambda_handler_type2 ctx e bs body ty iid itok hv hb hl hty h2 hid htok]
  have hdn : display_name_of body = .error .keyError := by
    unfold display_name_of
    rcases hmem with hm | ⟨mem, hm, hnick, hrest⟩
    · rw [hm]
    · rcases hrest with hu | ⟨u, hu, hun⟩
      · simp [hm, hnick, jTruthy, hu]
      · simp [hm, hnick, jTruthy, hu, hun]
  have hcp : checkin_payload ctx.googleKey body locv msgv = .error PyErr.keyError := by
    unfold checkin_payload
    rw [hdn]
  simp [handle_command, hd, ho, htr, hio, hloc, hcp]

/-- A parsed command body with a location option but no member field. -/
def cmdBodyNoMember : JVal :=
  .jobj [("type", .jnum 2), ("id", .jstr "I"), ("token", .jstr "T"),
         ("data", .jobj [("options", .jarr
           [.jobj [("name", .jstr "location"), ("value", .jstr "NYC")]])])]

/-- A context that parses every body as `cmdBodyNoMember`. -/
def ctxCmdNoMember : Ctx where
  sigValid := fun _ _ => true
  json_loads := fun _ => .ok cmdBodyNoMember
  placesGet := fun _ => .transportError
  postCallback := fun _ _ _ => .ok ()
  googleKey := "KEY"

/-- C10 witness: the concrete member-less command submission raises
KeyError with an empty call trace. -/
theorem C10_witness :
    lambda_handler ctxCmdNoMember evSigOk = (.error PyErr.keyError, []) :=
  C10_missing_member_keyerror ctxCmdNoMember evSigOk "x" cmdBodyNoMember (.jnum 2)
    (.jstr "I") (.jstr "T")
    (.jobj [("options", .jarr [.jobj [("name", .jstr "location"), ("value", .jstr "NYC")]])])
    (.jarr [.jobj [("name", .jstr "location"), ("value", .jstr "NYC")]])
    (.jstr "NYC") (.jstr "")
    rfl rfl rfl rfl rfl rfl rfl rfl rfl rfl rfl rfl (Or.inl rfl)
